import Mathlib

/-!
Verification development for the `autogame` repository.

The development shallowly embeds the parts of the code that the claims
C1 to C10 are about:

* `template_equipment_detector.py` : the template `MatchEngine`
  (`match_template_multiscale`, `detect_equipment_templates`,
  `_remove_overlapping_matches`, `_calculate_overlap`), the detector state
  (`set_match_threshold`, `start_realtime_detection`, `single_detection`)
  and one iteration of `_detection_loop`.
* `start_game.py` : the `GameController` ingestion callback
  (`equipment_detected_callback`, `_is_same_equipment`), the queue drain
  (`_process_equipment_queue`, `_verify_equipment_exists`) and one
  iteration of `_fighting_loop`.
* `v2/intelligent_game_controller.py` : the v2 pickup handler
  (`_handle_equipment_pickup`, `_sort_equipment_by_distance`,
  `_verify_equipment_exists`, `_pickup_single_equipment`).

Modelling conventions:

* Python floats are modelled as exact rationals (`ℚ`); the code only
  compares such values, never relies on rounding, except where noted.
* The euclidean distances that `start_game.py` stores (`math.sqrt` of a
  sum of squares) are modelled by the squared distance over `ℤ`.  The code
  only ever compares two such distances (sort keys, dedup radius), and
  squaring is strictly monotone on nonnegative reals, so every comparison
  in the model agrees with the comparison of the real square roots
  (30 px radius becomes 900 px² in the model).
* The external OpenCV primitives (`cv2.resize`, `cv2.matchTemplate`) are
  deterministic pure functions of their inputs; they are modelled as an
  abstract record of functions (`CvModel`).
* Python's `list.sort` / `sorted` are stable sorts; `stable_sort` below is
  a stable insertion sort, and the output of a stable sort is uniquely
  determined by the comparator and the input order, so the model computes
  exactly the list CPython computes.
* `time.time()` values are passed in explicitly as `now : ℚ` parameters.
-/

/-! ## A stable sort, modelling CPython `list.sort` / `sorted` -/

/-- Insert `x` into `l`, after every element `y` with `le y x`.  For equal
keys the incumbent stays in front, which is exactly CPython's stability
guarantee. -/
def insert_sorted (le : α → α → Bool) (x : α) : List α → List α
  | [] => [x]
  | y :: ys => if le y x then y :: insert_sorted le x ys else x :: y :: ys

/-- Stable sort by the comparator `le` (a model of CPython's stable
`list.sort`: a stable sort's output is uniquely determined by the
comparator and the input order). -/
def stable_sort (le : α → α → Bool) (l : List α) : List α :=
  l.foldl (fun acc x => insert_sorted le x acc) []

/-! ## MatchEngine (`template_equipment_detector.py`) -/

/-- A bounding box `(x, y, width, height)` in frame coordinates, the
`position` tuple of an `EquipmentMatch`. -/
structure Box where
  x : ℤ
  y : ℤ
  w : ℤ
  h : ℤ
deriving DecidableEq, Repr

/-- The `EquipmentMatch` dataclass of `template_equipment_detector.py`. -/
structure EquipmentMatch where
  equipment_name : String
  confidence : ℚ
  position : Box
  template_scale : ℚ
  timestamp : ℚ
deriving DecidableEq, Repr

/-- A grayscale image: dimensions plus a pixel function (uint8 values).
The pixel data is only ever consumed by the abstract OpenCV model. -/
structure Gray where
  rows : ℕ
  cols : ℕ
  px : ℕ → ℕ → ℕ

/-- Abstract model of the OpenCV primitives used by the detector.
`resize tmpl scale` is `cv2.resize(tmpl, None, fx=scale, fy=scale)`;
`score image scaled x y` is the entry `result[y, x]` of
`cv2.matchTemplate(image, scaled, cv2.TM_CCOEFF_NORMED)`.  Both are pure
deterministic functions of their arguments. -/
structure CvModel where
  resize : Gray → ℚ → Gray
  score : Gray → Gray → ℕ → ℕ → ℚ

/-- The fixed scale ladder of `match_template_multiscale`. -/
def scales : List ℚ :=
  [mkRat 7 10, mkRat 4 5, mkRat 9 10, 1, mkRat 11 10, mkRat 6 5, mkRat 13 10]

/-- `_calculate_overlap`: intersection-over-union of two boxes.  The
source computes `intersection / union` with Python numbers; the model
returns the exact rational value (`mkRat intersection union`, taken under
the guard `union > 0`, is exactly that quotient). -/
def calculate_overlap (box1 box2 : Box) : ℚ :=
  let x_overlap := max 0 (min (box1.x + box1.w) (box2.x + box2.w) - max box1.x box2.x)
  let y_overlap := max 0 (min (box1.y + box1.h) (box2.y + box2.h) - max box1.y box2.y)
  let intersection := x_overlap * y_overlap
  let union := box1.w * box1.h + box2.w * box2.h - intersection
  if 0 < union then mkRat intersection union.toNat else 0

/-- The locations `zip(*np.where(result >= threshold)[::-1])` of
`match_template_multiscale`: all `(x, y)` with score at least the match
threshold, in row-major order (`y` outer, `x` inner), over the result
matrix of shape `(image.rows - scaled.rows + 1, image.cols - scaled.cols + 1)`. -/
def match_locations (model : CvModel) (image scaled : Gray) (threshold : ℚ) : List (ℕ × ℕ) :=
  (List.range (image.rows - scaled.rows + 1)).flatMap (fun y =>
    (List.range (image.cols - scaled.cols + 1)).filterMap (fun x =>
      if threshold ≤ model.score image scaled x y then some (x, y) else none))

/-- `match_template_multiscale`: for each scale in the ladder, resize the
template, skip it if it exceeds the image in either dimension, and emit
one `EquipmentMatch` per retained location; every match is stamped with
the current time `now`. -/
def match_template_multiscale (model : CvModel) (image : Gray) (template_name : String)
    (template_gray : Gray) (threshold now : ℚ) : List EquipmentMatch :=
  scales.flatMap (fun scale =>
    let scaled := model.resize template_gray scale
    if image.rows < scaled.rows ∨ image.cols < scaled.cols then []
    else
      (match_locations model image scaled threshold).map (fun loc =>
        { equipment_name := template_name
          confidence := model.score image scaled loc.1 loc.2
          position := ⟨(loc.1 : ℤ), (loc.2 : ℤ), (scaled.cols : ℤ), (scaled.rows : ℤ)⟩
          template_scale := scale
          timestamp := now }))

/-- The pooled raw candidates of `detect_equipment_templates`: the
`all_matches` list, extended template by template (dict iteration order =
insertion order, modelled by the list order). -/
def pooled_matches (model : CvModel) (templates : List (String × Gray)) (image : Gray)
    (threshold now : ℚ) : List EquipmentMatch :=
  templates.flatMap (fun nt => match_template_multiscale model image nt.1 nt.2 threshold now)

/-- The comparator of `matches.sort(key=lambda x: x.confidence, reverse=True)`:
`a` may stay in front of `b` iff `a`'s confidence is at least `b`'s. -/
def conf_desc (a b : EquipmentMatch) : Bool :=
  decide (b.confidence ≤ a.confidence)

/-- One step of the suppression loop of `_remove_overlapping_matches`:
drop `m` iff it overlaps some already kept match by strictly more than the
overlap threshold, else append it. -/
def nms_fold_step (overlap_threshold : ℚ) (filtered : List EquipmentMatch)
    (m : EquipmentMatch) : List EquipmentMatch :=
  if filtered.any (fun existing =>
      decide (overlap_threshold < calculate_overlap m.position existing.position)) then
    filtered
  else filtered ++ [m]

/-- `_remove_overlapping_matches`: sort by descending confidence (stable),
then greedily keep a match unless it overlaps an already kept one by more
than `overlap_threshold` (default 0.5 at the call site). -/
def _remove_overlapping_matches (all_matches : List EquipmentMatch)
    (overlap_threshold : ℚ) : List EquipmentMatch :=
  if all_matches.isEmpty then all_matches
  else (stable_sort conf_desc all_matches).foldl (nms_fold_step overlap_threshold) []

/-- Greedy non-max suppression as the specification words it: candidates
are considered in order; one is kept exactly when its IoU with every
already kept candidate does not exceed the overlap threshold. -/
def greedy_nms (overlap_threshold : ℚ) :
    List EquipmentMatch → List EquipmentMatch → List EquipmentMatch
  | kept, [] => kept
  | kept, m :: rest =>
    if kept.all (fun e =>
        decide (calculate_overlap m.position e.position ≤ overlap_threshold)) then
      greedy_nms overlap_threshold (kept ++ [m]) rest
    else greedy_nms overlap_threshold kept rest

/-- `detect_equipment_templates`: pool the multiscale matches of every
template, then deduplicate across all templates and scales together with
overlap threshold 0.5.  (The source also returns the elapsed wall-clock
milliseconds; the claims are about the detection list.) -/
def detect_equipment_templates (model : CvModel) (templates : List (String × Gray))
    (image : Gray) (threshold now : ℚ) : List EquipmentMatch :=
  _remove_overlapping_matches (pooled_matches model templates image threshold now) (mkRat 1 2)

/-- Replace the `timestamp` field of a match (used to state that detection
is deterministic in everything except the stamped wall-clock time). -/
def set_timestamp (t : ℚ) (m : EquipmentMatch) : EquipmentMatch :=
  { m with timestamp := t }

/-! ## Detector state and lifecycle (`TemplateEquipmentDetector`) -/

/-- The mutable state of a `TemplateEquipmentDetector` instance that the
claims touch: the template library, the running flag, whether a detection
thread object has been created, and the match threshold. -/
structure DetectorState where
  templates : List (String × Gray)
  is_running : Bool
  has_detection_thread : Bool
  match_threshold : ℚ

/-- `set_match_threshold`: stores `max(0.0, min(1.0, threshold))`. -/
def set_match_threshold (s : DetectorState) (threshold : ℚ) : DetectorState :=
  { s with match_threshold := max 0 (min 1 threshold) }

/-- The console messages `start_realtime_detection` can print. -/
inductive StartLog
  | err_no_templates
  | already_running
  | started
deriving DecidableEq, Repr

/-- The observable outcome of `start_realtime_detection`: the new detector
state, the printed messages, and the value returned to the caller.  The
Python function ends every path with a bare `return`, so the caller-visible
return value is `None` on every path, modelled by `Unit`. -/
structure StartOutcome where
  state : DetectorState
  logs : List StartLog
  ret : Unit

/-- `start_realtime_detection`: refuse (and only print an error) when no
templates are loaded; report when already running; otherwise set the
running flag and create the detection thread. -/
def start_realtime_detection (s : DetectorState) : StartOutcome :=
  if s.templates.isEmpty then ⟨s, [StartLog.err_no_templates], ()⟩
  else if s.is_running then ⟨s, [StartLog.already_running], ()⟩
  else ⟨{ s with is_running := true, has_detection_thread := true }, [StartLog.started], ()⟩

/-- `single_detection`: capture a frame (`capture_screen_safe` returns
`none` when the grab raised, the exception having been caught there) and
either return `([], 0.0)` on a failed capture or run the template
detection.  `elapsed` stands for the wall-clock milliseconds the source
measures for the successful path. -/
def single_detection (model : CvModel) (templates : List (String × Gray)) (threshold : ℚ)
    (captured : Option Gray) (now elapsed : ℚ) : List EquipmentMatch × ℚ :=
  match captured with
  | none => ([], 0)
  | some image => (detect_equipment_templates model templates image threshold now, elapsed)

/-! ## One iteration of `_detection_loop` -/

/-- The loop-visible state of `_detection_loop`: the detector's running
flag, the result queue, and the two loop counters. -/
structure LoopState where
  is_running : Bool
  result_queue : List EquipmentMatch
  detection_count : ℕ
  loop_count : ℕ

/-- Delivery of one match: put it on the result queue, then invoke the
callback.  The callback receives the current running flag and returns the
flag as it left it (the Python callback is a closure that can read and
write `self.is_running`) together with `Except.error` when it raised; the
loop catches the exception (`try/except` around `callback(match)`), so the
error value is discarded and delivery of the remaining matches continues. -/
def deliver_match (cb : EquipmentMatch → Bool → Bool × Except String Unit)
    (st : LoopState) (m : EquipmentMatch) : LoopState :=
  let st1 := { st with result_queue := st.result_queue ++ [m] }
  { st1 with is_running := (cb m st1.is_running).1 }

/-- One iteration of `_detection_loop`: exit if the running flag is down;
otherwise bump the loop counter, and if the detection produced matches,
count them, deliver each one (queue + callback, exceptions caught), and
finally force the running flag back to `true` if a callback cleared it
(the defensive self-heal of the source). -/
def detection_loop_iter (cb : EquipmentMatch → Bool → Bool × Except String Unit)
    (found : List EquipmentMatch) (s : LoopState) : LoopState :=
  if s.is_running then
    let s1 := { s with loop_count := s.loop_count + 1 }
    if found.isEmpty then s1
    else
      let s2 := { s1 with detection_count := s1.detection_count + found.length }
      let s3 := found.foldl (deliver_match cb) s2
      if s3.is_running then s3 else { s3 with is_running := true }
  else s

/-- `n` consecutive iterations of `_detection_loop`, the iteration `i`
seeing the matches `found i`. -/
def detection_loop_run (cb : EquipmentMatch → Bool → Bool × Except String Unit)
    (found : ℕ → List EquipmentMatch) : ℕ → LoopState → LoopState
  | 0, s => s
  | n + 1, s => detection_loop_run cb found n (detection_loop_iter cb (found n) s)

/-! ## `start_game.py` : ingestion and queue drain -/

/-- The `equipment_info` dict built by `equipment_detected_callback`:
name, center point, confidence, size, arrival time, and distance to the
screen center.  The source stores the euclidean distance; the model stores
its square over `ℤ` (comparison-equivalent, see the header). -/
structure EquipmentInfo where
  name : String
  position : ℤ × ℤ
  confidence : ℚ
  size : ℤ × ℤ
  timestamp : ℚ
  distance_sq : ℤ
deriving DecidableEq, Repr

/-- `_calculate_distance_to_center` for a 1920x1080 screen, squared:
the squared euclidean distance of `(x, y)` to `(960, 540)`. -/
def _calculate_distance_sq_to_center (x y : ℤ) : ℤ :=
  (x - 960) ^ 2 + (y - 540) ^ 2

/-- Build the `equipment_info` dict from a detection: the center point is
`(x + w // 2, y + h // 2)` (Python floor division). -/
def make_equipment_info (m : EquipmentMatch) (now : ℚ) : EquipmentInfo :=
  { name := m.equipment_name
    position := (m.position.x + Int.fdiv m.position.w 2, m.position.y + Int.fdiv m.position.h 2)
    confidence := m.confidence
    size := (m.position.w, m.position.h)
    timestamp := now
    distance_sq := _calculate_distance_sq_to_center (m.position.x + Int.fdiv m.position.w 2)
      (m.position.y + Int.fdiv m.position.h 2) }

/-- `_is_same_equipment` with the default threshold 30 px: the centers are
closer than 30 px, i.e. the squared distance is below 900 px². -/
def _is_same_equipment (eq1 eq2 : EquipmentInfo) : Bool :=
  decide ((eq1.position.1 - eq2.position.1) ^ 2 + (eq1.position.2 - eq2.position.2) ^ 2 < 900)

/-- The comparator of `self.equipment_queue.sort(key=lambda eq: eq.distance)`. -/
def dist_asc (a b : EquipmentInfo) : Bool :=
  decide (a.distance_sq ≤ b.distance_sq)

/-- `equipment_detected_callback` (under `pickup_lock`): drop the incoming
detection if some queued target is within the dedup radius of it,
otherwise append it and re-sort the queue by ascending distance. -/
def equipment_detected_callback (queue : List EquipmentInfo) (m : EquipmentMatch)
    (now : ℚ) : List EquipmentInfo :=
  if queue.any (fun existing => _is_same_equipment (make_equipment_info m now) existing) then
    queue
  else stable_sort dist_asc (queue ++ [make_equipment_info m now])

/-- `start_game.py`'s `_verify_equipment_exists`: its body always returns
`True` (the verification is a stub that only logs). -/
def _verify_equipment_exists (_e : EquipmentInfo) : Bool :=
  true

/-- `_process_equipment_queue`: pop targets from the front until the queue
is empty; for each popped target that still verifies, make exactly one
pickup attempt (`pickup_ok` is the success of `_pickup_single_equipment`,
delegated to the `ActionDriver`); return the processed targets with their
attempt results, in processing order. -/
def _process_equipment_queue (pickup_ok : EquipmentInfo → Bool) :
    List EquipmentInfo → List (EquipmentInfo × Bool)
  | [] => []
  | e :: rest =>
    if _verify_equipment_exists e then
      (e, pickup_ok e) :: _process_equipment_queue pickup_ok rest
    else _process_equipment_queue pickup_ok rest

/-- Targets no two of which have centers within the dedup radius:
the squared center distance is at least 900 px² (= 30 px). -/
def separated (e1 e2 : EquipmentInfo) : Prop :=
  900 ≤ (e1.position.1 - e2.position.1) ^ 2 + (e1.position.2 - e2.position.2) ^ 2

/-- The C2 queue invariant: pairwise separation by the dedup radius. -/
def queue_separated (q : List EquipmentInfo) : Prop :=
  q.Pairwise separated

/-- The C3 queue invariant: ascending distance to the anchor point. -/
def sorted_by_distance (q : List EquipmentInfo) : Prop :=
  q.Pairwise (fun a b => a.distance_sq ≤ b.distance_sq)

/-! ## One iteration of `_fighting_loop` (`start_game.py`) -/

/-- The externally visible actions one fighting-loop iteration can issue
through the controller.  `release_inputs` is the defensive key/button
release at the start of the pickup branch; `pickup_attempt` records one
call of `_pickup_single_equipment` and its result. -/
inductive GameAction
  | release_inputs
  | move (x y : ℤ)
  | attack (x y : ℤ)
  | pickup_attempt (name : String) (success : Bool)
deriving DecidableEq, Repr

/-- `true` exactly on pickup attempts. -/
def is_pickup_action : GameAction → Bool
  | GameAction.pickup_attempt _ _ => true
  | _ => false

/-- `true` exactly on the combat actions, move and attack. -/
def is_combat_action : GameAction → Bool
  | GameAction.move _ _ => true
  | GameAction.attack _ _ => true
  | _ => false

/-- The `_fighting_loop` state the claims touch. -/
structure FightState where
  is_running : Bool
  is_fighting : Bool
  should_stop : Bool
  equipment_found : Bool
  is_picking_up : Bool
  equipment_queue : List EquipmentInfo
  last_move_time : ℚ
  last_attack_time : ℚ
  random_move_count : ℕ
  max_random_moves : ℕ
  move_interval : ℚ
  fight_interval : ℚ

/-- The per-iteration inputs of `_fighting_loop` that come from outside
the state: the wall clock, the two pseudo-random combat positions
(`get_random_combat_position` draws them), and the `ActionDriver` result
of each pickup attempt. -/
structure FightEnv where
  now : ℚ
  move_pos : ℤ × ℤ
  attack_pos : ℤ × ℤ
  pickup_ok : EquipmentInfo → Bool

/-- The move block of the combat branch: every `move_interval` seconds
either return to the screen center (after `max_random_moves` random moves)
or take a random position, and issue one move. -/
def move_step (env : FightEnv) (s : FightState) : FightState × List GameAction :=
  if s.move_interval ≤ env.now - s.last_move_time then
    if s.max_random_moves ≤ s.random_move_count then
      ({ s with random_move_count := 0, last_move_time := env.now },
        [GameAction.move 960 540])
    else
      ({ s with random_move_count := s.random_move_count + 1, last_move_time := env.now },
        [GameAction.move env.move_pos.1 env.move_pos.2])
  else (s, [])

/-- The attack block of the combat branch: every `fight_interval` seconds
issue one attack at a random position. -/
def attack_step (env : FightEnv) (s : FightState) : FightState × List GameAction :=
  if s.fight_interval ≤ env.now - s.last_attack_time then
    ({ s with last_attack_time := env.now }, [GameAction.attack env.attack_pos.1 env.attack_pos.2])
  else (s, [])

/-- One iteration of `_fighting_loop`: exit when the loop guard fails or a
stop was requested; when equipment was found and no pickup is in flight,
release all held inputs, set the picking-up flag, drain the whole queue
synchronously, clear the flags and `continue` (no move, no attack in this
iteration); otherwise run the two independent combat clocks. -/
def fighting_iter (env : FightEnv) (s : FightState) : FightState × List GameAction :=
  if s.is_running = false ∨ s.is_fighting = false then (s, [])
  else if s.should_stop = true then (s, [])
  else if s.equipment_found = true ∧ s.is_picking_up = false then
    ({ s with equipment_queue := [], is_picking_up := false, equipment_found := false },
      GameAction.release_inputs ::
        (_process_equipment_queue env.pickup_ok s.equipment_queue).map
          (fun r => GameAction.pickup_attempt r.1.name r.2))
  else
    ((attack_step env (move_step env s).1).1,
      (move_step env s).2 ++ (attack_step env (move_step env s).1).2)

/-! ## `v2/intelligent_game_controller.py` : the pickup handler -/

/-- The `equipment_info` dict of `_detect_equipment` in the v2 controller.
Its `position` entry is the *whole* `match.position` tuple `(x, y, w, h)`,
modelled as a list of integers (the later `x, y = position` unpacking must
therefore be modelled as fallible). -/
structure EquipmentInfoV2 where
  name : String
  position : List ℤ
  confidence : ℚ
  timestamp : ℚ
  hwnd : ℤ
deriving DecidableEq, Repr

/-- The Python unpacking `x, y = t`: succeeds exactly on pairs, raises
`ValueError` (here `none`) on any other length. -/
def unpack_pair : List ℤ → Option (ℤ × ℤ)
  | [x, y] => some (x, y)
  | _ => none

/-- The `calculate_distance` key of `_sort_equipment_by_distance`:
unpack the stored position and return the (squared, see header) distance
to the screen center; `none` models the `ValueError` the unpacking raises
when the stored position is not a pair. -/
def equipment_distance_key (e : EquipmentInfoV2) : Option ℤ :=
  match unpack_pair e.position with
  | some (x, y) => some ((x - 960) ^ 2 + (y - 540) ^ 2)
  | none => none

/-- `_sort_equipment_by_distance`: `sorted(equipment_list, key=...)`
evaluates the key on every element; if any key raises, the surrounding
`except` returns the input list unchanged, else the list is stably sorted
by ascending key. -/
def _sort_equipment_by_distance (l : List EquipmentInfoV2) : List EquipmentInfoV2 :=
  if l.all (fun e => (equipment_distance_key e).isSome) then
    stable_sort (fun a b =>
      decide ((equipment_distance_key a).getD 0 ≤ (equipment_distance_key b).getD 0)) l
  else l

/-- The v2 `_verify_equipment_exists`: `True` when there is no detector;
otherwise the target is considered gone iff its detection is older than
5 seconds. -/
def _verify_equipment_exists_v2 (has_detector : Bool) (now : ℚ) (e : EquipmentInfoV2) : Bool :=
  if has_detector = false then true
  else if 5 < now - e.timestamp then false
  else true

/-- The v2 `_pickup_single_equipment`: unpack the stored position and run
the click sequence (`click_ok` is the outcome of `_pickup_click_sequence`,
the delivery mechanism being the out-of-scope `ActionDriver`); the
unpacking of a non-pair raises and the surrounding `except` returns
`False`. -/
def _pickup_single_equipment_v2 (click_ok : ℤ → ℤ → Bool) (e : EquipmentInfoV2) : Bool :=
  match unpack_pair e.position with
  | some (x, y) => click_ok x y
  | none => false

/-- The per-target console messages of the v2 pickup loop: a pickup
attempt's success or failure, or the distinct skip message for a target
that no longer verifies. -/
inductive PickupLog
  | pickup_success (name : String)
  | pickup_failure (name : String)
  | skipped_gone (name : String)
deriving DecidableEq, Repr

/-- What `_handle_equipment_pickup` leaves behind: the per-target log, the
remaining queue, and the picking-up flag (cleared in `finally`). -/
structure PickupOutcome where
  logs : List PickupLog
  equipment_queue : List EquipmentInfoV2
  is_picking_up : Bool

/-- The `for i, equipment_info in enumerate(sorted_equipment)` loop of
`_handle_equipment_pickup`: each target is verified; a verified target
gets exactly one `_pickup_single_equipment` call whose outcome is logged;
an unverified target is logged as gone without any pickup call; every
target is appended to `processed_equipment` in both branches.  Returns the
logs and the processed list, in loop order. -/
def pickup_loop (click_ok : ℤ → ℤ → Bool) (has_detector : Bool) (now : ℚ) :
    List EquipmentInfoV2 → List PickupLog × List EquipmentInfoV2
  | [] => ([], [])
  | e :: rest =>
    let log :=
      if _verify_equipment_exists_v2 has_detector now e then
        if _pickup_single_equipment_v2 click_ok e then PickupLog.pickup_success e.name
        else PickupLog.pickup_failure e.name
      else PickupLog.skipped_gone e.name
    let r := pickup_loop click_ok has_detector now rest
    (log :: r.1, e :: r.2)

/-- `_handle_equipment_pickup`: return untouched while the pickup cooldown
(2 s) has not elapsed or the queue is empty; otherwise set the picking-up
flag, sort the queue by distance, run the pickup loop over it, remove
every processed target from the queue (`list.remove`, first occurrence),
and clear the flag in `finally`. -/
def _handle_equipment_pickup (click_ok : ℤ → ℤ → Bool) (has_detector : Bool)
    (now last_pickup_time : ℚ) (queue : List EquipmentInfoV2) : PickupOutcome :=
  if now - last_pickup_time < 2 then ⟨[], queue, false⟩
  else if queue.isEmpty then ⟨[], queue, false⟩
  else
    let r := pickup_loop click_ok has_detector now (_sort_equipment_by_distance queue)
    ⟨r.1, r.2.foldl (fun acc e => acc.erase e) queue, false⟩

/-- The `equipment_info` dict `_detect_equipment` builds for one match:
its `position` entry is the whole `match.position` tuple `(x, y, w, h)`. -/
def make_equipment_info_v2 (hwnd : ℤ) (m : EquipmentMatch) (now : ℚ) : EquipmentInfoV2 :=
  { name := m.equipment_name
    position := [m.position.x, m.position.y, m.position.w, m.position.h]
    confidence := m.confidence
    timestamp := now
    hwnd := hwnd }

/-- The v2 ingestion path `_detect_equipment`: grab a window screenshot
(`none` models a failed grab, after which the method just returns), and
when a detector with a nonempty template library is present, run the
template detection on the frame and append one queue entry per detection
to `equipment_queue`.  Unlike `equipment_detected_callback` in
`start_game.py`, this path performs no deduplication whatsoever: v2 never
calls its `_is_same_equipment` and compares no center distances at
ingestion time, so repeated or nearby detections all pile up. -/
def _detect_equipment (model : CvModel) (templates : List (String × Gray)) (hwnd : ℤ)
    (queue : List EquipmentInfoV2) (screenshot : Option Gray) (threshold now : ℚ) :
    List EquipmentInfoV2 :=
  match screenshot with
  | none => queue
  | some image =>
    if templates.isEmpty then queue
    else
      queue ++ (detect_equipment_templates model templates image threshold now).map
          (fun m => make_equipment_info_v2 hwnd m now)

/-- The center point of a stored v2 queue entry whose `position` is the
`(x, y, w, h)` tuple: `(x + w // 2, y + h // 2)` — the center the dedup
radius of the claimed invariant speaks about. -/
def equipment_center_v2 (e : EquipmentInfoV2) : Option (ℤ × ℤ) :=
  match e.position with
  | [x, y, w, h] => some (x + Int.fdiv w 2, y + Int.fdiv h 2)
  | _ => none

/-! ## Concrete instances for the scenario checks -/

/-- A 1x1 grayscale image. -/
def gray_one : Gray := ⟨1, 1, fun _ _ => 0⟩

/-- A degenerate OpenCV model: resizing never changes the template and
every location scores a perfect 1. -/
def cv_const : CvModel :=
  { resize := fun g _ => g
    score := fun _ _ _ _ => 1 }

/-- A 2x2 template. -/
def gray_a : Gray := ⟨2, 2, fun _ _ => 0⟩

/-- A 1x2 template (1 row, 2 columns). -/
def gray_b : Gray := ⟨1, 2, fun _ _ => 0⟩

/-- A 2x2 frame. -/
def gray_img : Gray := ⟨2, 2, fun _ _ => 0⟩

/-- An OpenCV model under which the 2x2 template matches at `(0,0)` with
confidence 0.9 and the 1x2 template matches only in row 0, with
confidence 0.8: resizing at any scale other than 1.0 oversizes the
template so that only scale 1.0 survives. -/
def cv_half : CvModel :=
  { resize := fun g s => if s = 1 then g else ⟨100, 100, g.px⟩
    score := fun _ t _ y =>
      if t.rows = 2 then mkRat 9 10 else if y = 0 then mkRat 8 10 else 0 }

/-- The detection the 2x2 template yields under `cv_half`. -/
def match_a_half : EquipmentMatch :=
  { equipment_name := "a", confidence := mkRat 9 10, position := ⟨0, 0, 2, 2⟩
    template_scale := 1, timestamp := 0 }

/-- The detection the 1x2 template yields under `cv_half`: its box
`(0,0,2,1)` has IoU exactly 1/2 with the box `(0,0,2,2)`. -/
def match_b_half : EquipmentMatch :=
  { equipment_name := "b", confidence := mkRat 8 10, position := ⟨0, 0, 2, 1⟩
    template_scale := 1, timestamp := 0 }

/-- A pair of overlapping detections for the C1 witness: same box family,
IoU 3/4, confidences 0.9 over 0.8. -/
def match_hi : EquipmentMatch :=
  { equipment_name := "hi", confidence := mkRat 9 10, position := ⟨0, 0, 4, 4⟩
    template_scale := 1, timestamp := 0 }

/-- The lower-confidence member of the C1 witness pair. -/
def match_lo : EquipmentMatch :=
  { equipment_name := "lo", confidence := mkRat 8 10, position := ⟨0, 0, 4, 3⟩
    template_scale := 1, timestamp := 0 }

/-- The C2 scenario detection at bounding box `(100, 100, 40, 40)`. -/
def match_c2_first : EquipmentMatch :=
  { equipment_name := "drop", confidence := mkRat 9 10, position := ⟨100, 100, 40, 40⟩
    template_scale := 1, timestamp := 0 }

/-- The C2 scenario detection at bounding box `(108, 102, 40, 40)`: its
center is within 30 px of the first one's. -/
def match_c2_second : EquipmentMatch :=
  { equipment_name := "drop", confidence := mkRat 8 10, position := ⟨108, 102, 40, 40⟩
    template_scale := 1, timestamp := 0 }

/-- C3 scenario: a detection whose center `(1260, 540)` is 300 px from the
anchor `(960, 540)`. -/
def match_c3_far : EquipmentMatch :=
  { equipment_name := "far", confidence := mkRat 9 10, position := ⟨1250, 530, 20, 20⟩
    template_scale := 1, timestamp := 0 }

/-- C3 scenario: a detection whose center `(1010, 540)` is 50 px from the
anchor. -/
def match_c3_near : EquipmentMatch :=
  { equipment_name := "near", confidence := mkRat 9 10, position := ⟨1000, 530, 20, 20⟩
    template_scale := 1, timestamp := 0 }

/-- C3 scenario: a detection whose center `(1110, 540)` is 150 px from the
anchor. -/
def match_c3_mid : EquipmentMatch :=
  { equipment_name := "mid", confidence := mkRat 9 10, position := ⟨1100, 530, 20, 20⟩
    template_scale := 1, timestamp := 0 }

/-- The C3 scenario queue: the three detections ingested in arrival order
far (300 px), near (50 px), mid (150 px). -/
def queue_c3 : List EquipmentInfo :=
  equipment_detected_callback
    (equipment_detected_callback
      (equipment_detected_callback [] match_c3_far 0) match_c3_near 0) match_c3_mid 0

/-- A callback that raises on every invocation and leaves the running flag
as it found it. -/
def cb_always_raises : EquipmentMatch → Bool → Bool × Except String Unit :=
  fun _ running => (running, Except.error "callback raised")

/-- A starting loop state with the running flag up. -/
def loop_state0 : LoopState :=
  { is_running := true, result_queue := [], detection_count := 0, loop_count := 0 }

/-- A queued target for the C4 witness. -/
def equipment_c4 : EquipmentInfo :=
  { name := "drop", position := (1000, 600), confidence := mkRat 9 10, size := (40, 40)
    timestamp := 0, distance_sq := _calculate_distance_sq_to_center 1000 600 }

/-- A fighting-loop state that has just observed a detection: equipment
found, not yet picking up, one queued target. -/
def fight_state_c4 : FightState :=
  { is_running := true, is_fighting := true, should_stop := false
    equipment_found := true, is_picking_up := false
    equipment_queue := [equipment_c4]
    last_move_time := 0, last_attack_time := 0
    random_move_count := 0, max_random_moves := 30
    move_interval := 2, fight_interval := mkRat 3 2 }

/-- A per-iteration environment for the C4 witness. -/
def fight_env_c4 : FightEnv :=
  { now := 10, move_pos := (800, 500), attack_pos := (900, 700), pickup_ok := fun _ => true }

/-- A click sequence that always fails, for the C6 witness. -/
def click_never : ℤ → ℤ → Bool := fun _ _ => false

/-- A fresh v2 target (age 2 s at time 10) whose stored position is the
4-tuple the v2 detector actually stores. -/
def equipment_v2_fresh : EquipmentInfoV2 :=
  { name := "fresh", position := [100, 100, 40, 40], confidence := mkRat 9 10
    timestamp := 8, hwnd := 1 }

/-- A stale v2 target (age 9 s at time 10). -/
def equipment_v2_stale : EquipmentInfoV2 :=
  { name := "stale", position := [200, 200, 40, 40], confidence := mkRat 9 10
    timestamp := 1, hwnd := 1 }

/-- A 142x148 frame whose pixels are 1, on which `cv_c2` places the first
C2 scenario detection. -/
def gray_frame1 : Gray := ⟨142, 148, fun _ _ => 1⟩

/-- A 142x148 frame whose pixels are 2, on which `cv_c2` places the
second C2 scenario detection. -/
def gray_frame2 : Gray := ⟨142, 148, fun _ _ => 2⟩

/-- A 40x40 template for the C2 scenario. -/
def gray_tmpl40 : Gray := ⟨40, 40, fun _ _ => 0⟩

/-- An OpenCV model under which frame 1 matches the 40x40 template only
at `(100, 100)` with confidence 0.9 and frame 2 only at `(108, 102)` with
confidence 0.8; every scale other than 1.0 oversizes the template so only
scale 1.0 survives. -/
def cv_c2 : CvModel :=
  { resize := fun g s => if s = 1 then g else ⟨1000, 1000, g.px⟩
    score := fun img _ x y =>
      if img.px 0 0 = 1 then (if x = 100 ∧ y = 100 then mkRat 9 10 else 0)
      else if x = 108 ∧ y = 102 then mkRat 8 10 else 0 }

/-- The v2 pending queue after `_detect_equipment` has ingested the two
C2 scenario frames in succession. -/
def queue_v2_c2 : List EquipmentInfoV2 :=
  _detect_equipment cv_c2 [("t", gray_tmpl40)] 1
    (_detect_equipment cv_c2 [("t", gray_tmpl40)] 1 [] (some gray_frame1) (mkRat 7 10) 0)
    (some gray_frame2) (mkRat 7 10) 1

/-- A detector state with no templates loaded and nothing running. -/
def detector_state_empty : DetectorState :=
  { templates := [], is_running := false, has_detection_thread := false
    match_threshold := mkRat 7 10 }

/-- A detector state with one template loaded and nothing running. -/
def detector_state_loaded : DetectorState :=
  { templates := [("sword", gray_one)], is_running := false, has_detection_thread := false
    match_threshold := mkRat 7 10 }


/-! ## Helper lemmas: stable sort -/

theorem insert_sorted_perm (le : α → α → Bool) (x : α) :
    ∀ l : List α, List.Perm (insert_sorted le x l) (x :: l) := by
  intro l
  induction l with
  | nil => simp [insert_sorted]
  | cons y ys ih =>
    unfold insert_sorted
    by_cases h : le y x
    · simp only [h, if_true]
      exact (ih.cons y).trans (List.Perm.swap x y ys)
    · simp [h]

theorem stable_sort_foldl_perm (le : α → α → Bool) :
    ∀ (l acc : List α),
      List.Perm (l.foldl (fun a x => insert_sorted le x a) acc) (acc ++ l) := by
  intro l
  induction l with
  | nil => intro acc; simp
  | cons x xs ih =>
    intro acc
    have h1 := ih (insert_sorted le x acc)
    have h2 : List.Perm (insert_sorted le x acc ++ xs) ((x :: acc) ++ xs) :=
      (insert_sorted_perm le x acc).append_right xs
    have h3 : List.Perm ((x :: acc) ++ xs) (acc ++ x :: xs) := by
      simpa using (@List.perm_middle _ x acc xs).symm
    simpa using (h1.trans h2).trans h3

theorem stable_sort_perm (le : α → α → Bool) (l : List α) :
    List.Perm (stable_sort le l) l := by
  simpa using stable_sort_foldl_perm le l []

theorem insert_sorted_pairwise (le : α → α → Bool)
    (htot : ∀ a b : α, le a b = true ∨ le b a = true)
    (htrans : ∀ a b c : α, le a b = true → le b c = true → le a c = true)
    (x : α) :
    ∀ l : List α, l.Pairwise (fun a b => le a b = true) →
      (insert_sorted le x l).Pairwise (fun a b => le a b = true) := by
  intro l
  induction l with
  | nil => intro _; simp [insert_sorted]
  | cons y ys ih =>
    intro hl
    have hy : ∀ z ∈ ys, le y z = true := (List.pairwise_cons.mp hl).1
    have hys : ys.Pairwise (fun a b => le a b = true) := (List.pairwise_cons.mp hl).2
    unfold insert_sorted
    by_cases h : le y x
    · simp only [h, if_true]
      refine List.pairwise_cons.mpr ⟨?_, ih hys⟩
      intro z hz
      have hz2 : z ∈ x :: ys := ((insert_sorted_perm le x ys).mem_iff).mp hz
      rcases List.mem_cons.mp hz2 with hz3 | hz3
      · simpa [hz3] using h
      · exact hy z hz3
    · simp only [h, if_false]
      have hxy : le x y = true := by
        rcases htot x y with h1 | h1
        · exact h1
        · exact absurd h1 (by simpa using h)
      refine List.pairwise_cons.mpr ⟨?_, hl⟩
      intro z hz
      rcases List.mem_cons.mp hz with hz3 | hz3
      · simpa [hz3] using hxy
      · exact htrans x y z hxy (hy z hz3)

theorem stable_sort_foldl_pairwise (le : α → α → Bool)
    (htot : ∀ a b : α, le a b = true ∨ le b a = true)
    (htrans : ∀ a b c : α, le a b = true → le b c = true → le a c = true) :
    ∀ (l acc : List α), acc.Pairwise (fun a b => le a b = true) →
      (l.foldl (fun a x => insert_sorted le x a) acc).Pairwise (fun a b => le a b = true) := by
  intro l
  induction l with
  | nil => intro acc h; simpa using h
  | cons x xs ih =>
    intro acc h
    exact ih (insert_sorted le x acc) (insert_sorted_pairwise le htot htrans x acc h)

theorem stable_sort_pairwise (le : α → α → Bool)
    (htot : ∀ a b : α, le a b = true ∨ le b a = true)
    (htrans : ∀ a b c : α, le a b = true → le b c = true → le a c = true)
    (l : List α) :
    (stable_sort le l).Pairwise (fun a b => le a b = true) :=
  stable_sort_foldl_pairwise le htot htrans l [] (by simp)

theorem insert_sorted_map (le : α → α → Bool) (le' : β → β → Bool) (f : β → α)
    (hle : ∀ a b : β, le (f a) (f b) = le' a b) (x : β) :
    ∀ l : List β, insert_sorted le (f x) (l.map f) = (insert_sorted le' x l).map f := by
  intro l
  induction l with
  | nil => simp [insert_sorted]
  | cons y ys ih =>
    simp only [List.map_cons]
    unfold insert_sorted
    rw [hle]
    by_cases h : le' y x
    · simp [h, ih]
    · simp [h]

theorem stable_sort_foldl_map (le : α → α → Bool) (le' : β → β → Bool) (f : β → α)
    (hle : ∀ a b : β, le (f a) (f b) = le' a b) :
    ∀ (l acc : List β),
      (l.map f).foldl (fun a x => insert_sorted le x a) (acc.map f)
        = (l.foldl (fun a x => insert_sorted le' x a) acc).map f := by
  intro l
  induction l with
  | nil => intro acc; simp
  | cons x xs ih =>
    intro acc
    simp only [List.map_cons, List.foldl_cons]
    rw [insert_sorted_map le le' f hle x acc, ih]

theorem stable_sort_map (le : α → α → Bool) (le' : β → β → Bool) (f : β → α)
    (hle : ∀ a b : β, le (f a) (f b) = le' a b) (l : List β) :
    stable_sort le (l.map f) = (stable_sort le' l).map f := by
  simpa using stable_sort_foldl_map le le' f hle l []

/-! ## Helper lemmas: overlap and non-max suppression -/

theorem calculate_overlap_comm (b1 b2 : Box) :
    calculate_overlap b1 b2 = calculate_overlap b2 b1 := by
  simp only [calculate_overlap]
  rw [min_comm (b1.x + b1.w), max_comm b1.x, min_comm (b1.y + b1.h), max_comm b1.y,
    add_comm (b1.w * b1.h)]

theorem nms_foldl_eq_greedy (thr : ℚ) :
    ∀ (l kept : List EquipmentMatch),
      l.foldl (nms_fold_step thr) kept = greedy_nms thr kept l := by
  intro l
  induction l with
  | nil => intro kept; simp [greedy_nms]
  | cons m rest ih =>
    intro kept
    simp only [List.foldl_cons, greedy_nms]
    by_cases hall : kept.all
        (fun e => decide (calculate_overlap m.position e.position ≤ thr)) = true
    · have hany : kept.any (fun existing =>
          decide (thr < calculate_overlap m.position existing.position)) = false := by
        simp only [List.any_eq_false, decide_eq_true_eq, not_lt]
        intro e he
        have := List.all_eq_true.mp hall e he
        simpa using this
      simp only [hall, if_true, nms_fold_step, hany, Bool.false_eq_true, if_false]
      exact ih (kept ++ [m])
    · have hany : kept.any (fun existing =>
          decide (thr < calculate_overlap m.position existing.position)) = true := by
        simp only [List.all_eq_true, not_forall] at hall
        rcases hall with ⟨e, he, hne⟩
        refine List.any_eq_true.mpr ⟨e, he, ?_⟩
        simp only [decide_eq_true_eq]
        have : ¬ calculate_overlap m.position e.position ≤ thr := by
          simpa using hne
        exact lt_of_not_le this
      simp only [hall, if_false, nms_fold_step, hany, if_true]
      exact ih kept

theorem remove_overlapping_eq_greedy (l : List EquipmentMatch) (thr : ℚ) :
    _remove_overlapping_matches l thr = greedy_nms thr [] (stable_sort conf_desc l) := by
  unfold _remove_overlapping_matches
  by_cases hl : l.isEmpty
  · have : l = [] := by simpa [List.isEmpty_iff] using hl
    subst this
    simp [stable_sort, greedy_nms]
  · simp only [hl, Bool.false_eq_true, if_false]
    exact nms_foldl_eq_greedy thr (stable_sort conf_desc l) []

theorem nms_foldl_map (thr : ℚ) (f : EquipmentMatch → EquipmentMatch)
    (hpos : ∀ m, (f m).position = m.position) :
    ∀ (l kept : List EquipmentMatch),
      (l.map f).foldl (nms_fold_step thr) (kept.map f)
        = (l.foldl (nms_fold_step thr) kept).map f := by
  intro l
  induction l with
  | nil => intro kept; simp
  | cons m rest ih =>
    intro kept
    simp only [List.map_cons, List.foldl_cons]
    have hstep : nms_fold_step thr (kept.map f) (f m) = (nms_fold_step thr kept m).map f := by
      unfold nms_fold_step
      have hany : ((kept.map f).any (fun existing =>
            decide (thr < calculate_overlap (f m).position existing.position)))
          = (kept.any (fun existing =>
            decide (thr < calculate_overlap m.position existing.position))) := by
        rw [List.any_map]
        congr 1
        funext e
        simp [Function.comp, hpos]
      rw [hany]
      by_cases h : kept.any (fun existing =>
          decide (thr < calculate_overlap m.position existing.position)) = true
      · simp [h]
      · simp only [Bool.not_eq_true] at h
        simp [h]
    rw [hstep, ih]

/-! ## Helper lemmas: timestamps factor out of the detection pipeline -/

theorem flatMap_eq_map_flatMap (f g : α → List β) (h : β → β)
    (hfg : ∀ a, f a = (g a).map h) :
    ∀ l : List α, l.flatMap f = (l.flatMap g).map h := by
  intro l
  induction l with
  | nil => simp
  | cons a as ih => simp [hfg a, ih, List.map_append]

theorem match_template_multiscale_timestamp (model : CvModel) (image : Gray)
    (template_name : String) (template_gray : Gray) (threshold t1 t2 : ℚ) :
    match_template_multiscale model image template_name template_gray threshold t1
      = (match_template_multiscale model image template_name template_gray threshold t2).map
          (set_timestamp t1) := by
  unfold match_template_multiscale
  apply flatMap_eq_map_flatMap _ _ _ _ scales
  intro scale
  by_cases hc : image.rows < (model.resize template_gray scale).rows
      ∨ image.cols < (model.resize template_gray scale).cols
  · simp [hc]
  · simp only [hc, if_false, List.map_map]
    rfl

theorem pooled_matches_timestamp (model : CvModel) (templates : List (String × Gray))
    (image : Gray) (threshold t1 t2 : ℚ) :
    pooled_matches model templates image threshold t1
      = (pooled_matches model templates image threshold t2).map (set_timestamp t1) := by
  unfold pooled_matches
  exact flatMap_eq_map_flatMap _ _ _
    (fun nt => match_template_multiscale_timestamp model image nt.1 nt.2 threshold t1 t2)
    templates

/-! ## Helper lemmas: the removal loop empties a permuted queue -/

theorem perm_foldl_erase [DecidableEq α] :
    ∀ (p q : List α), List.Perm p q → p.foldl (fun acc e => acc.erase e) q = [] := by
  intro p
  induction p with
  | nil =>
    intro q h
    simpa using h.nil_eq.symm
  | cons e p' ih =>
    intro q h
    have h2 := List.cons_perm_iff_perm_erase.mp h
    simpa using ih (q.erase e) h2.2

/-! ## Helper lemmas: the v2 pickup loop -/

theorem pickup_loop_logs (click_ok : ℤ → ℤ → Bool) (has_detector : Bool) (now : ℚ) :
    ∀ l : List EquipmentInfoV2,
      (pickup_loop click_ok has_detector now l).1
        = l.map (fun e =>
            if _verify_equipment_exists_v2 has_detector now e then
              if _pickup_single_equipment_v2 click_ok e then PickupLog.pickup_success e.name
              else PickupLog.pickup_failure e.name
            else PickupLog.skipped_gone e.name) := by
  intro l
  induction l with
  | nil => rfl
  | cons e rest ih => simp [pickup_loop, ih]

theorem pickup_loop_processed (click_ok : ℤ → ℤ → Bool) (has_detector : Bool) (now : ℚ) :
    ∀ l : List EquipmentInfoV2, (pickup_loop click_ok has_detector now l).2 = l := by
  intro l
  induction l with
  | nil => rfl
  | cons e rest ih => simp [pickup_loop, ih]

theorem sort_equipment_by_distance_perm (l : List EquipmentInfoV2) :
    List.Perm (_sort_equipment_by_distance l) l := by
  unfold _sort_equipment_by_distance
  by_cases h : l.all (fun e => (equipment_distance_key e).isSome)
  · simp only [h, if_true]
    exact stable_sort_perm _ l
  · simp [h]

/-! ## Helper lemmas: the detection loop -/

theorem deliver_foldl_loop_count (cb : EquipmentMatch → Bool → Bool × Except String Unit) :
    ∀ (ms : List EquipmentMatch) (st : LoopState),
      (ms.foldl (deliver_match cb) st).loop_count = st.loop_count := by
  intro ms
  induction ms with
  | nil => intro st; rfl
  | cons m rest ih => intro st; simp [List.foldl_cons, ih, deliver_match]

theorem detection_loop_iter_keeps_running
    (cb : EquipmentMatch → Bool → Bool × Except String Unit)
    (found : List EquipmentMatch) (s : LoopState) (h : s.is_running = true) :
    (detection_loop_iter cb found s).is_running = true
      ∧ (detection_loop_iter cb found s).loop_count = s.loop_count + 1 := by
  obtain ⟨r, q, d, c⟩ := s
  have hr : r = true := h
  subst hr
  unfold detection_loop_iter
  by_cases hf : found.isEmpty
  · simp [hf]
  · simp only [hf, Bool.false_eq_true, if_false, if_true]
    have hlc := deliver_foldl_loop_count cb found
      ⟨true, q, d + found.length, c + 1⟩
    by_cases hrun :
        (found.foldl (deliver_match cb) ⟨true, q, d + found.length, c + 1⟩).is_running = true
    · simp [hrun, hlc]
    · simp only [Bool.not_eq_true] at hrun
      simp [hrun, hlc]

theorem detection_loop_run_keeps_running
    (cb : EquipmentMatch → Bool → Bool × Except String Unit)
    (found : ℕ → List EquipmentMatch) :
    ∀ (n : ℕ) (s : LoopState), s.is_running = true →
      (detection_loop_run cb found n s).is_running = true
        ∧ (detection_loop_run cb found n s).loop_count = s.loop_count + n := by
  intro n
  induction n with
  | zero => intro s h; simpa [detection_loop_run] using h
  | succ k ih =>
    intro s h
    have hit := detection_loop_iter_keeps_running cb (found k) s h
    have hrec := ih (detection_loop_iter cb (found k) s) hit.1
    refine ⟨hrec.1, ?_⟩
    show (detection_loop_run cb found k (detection_loop_iter cb (found k) s)).loop_count
      = s.loop_count + (k + 1)
    rw [hrec.2, hit.2]
    omega

/-! ## Helper lemmas: ingestion and drain (`start_game.py`) -/

theorem separated_symm (e1 e2 : EquipmentInfo) (h : separated e1 e2) : separated e2 e1 := by
  unfold separated at h ⊢
  have h1 : (e2.position.1 - e1.position.1) ^ 2 = (e1.position.1 - e2.position.1) ^ 2 := by ring
  have h2 : (e2.position.2 - e1.position.2) ^ 2 = (e1.position.2 - e2.position.2) ^ 2 := by ring
  rw [h1, h2]
  exact h

theorem not_same_separated (e1 e2 : EquipmentInfo) (h : _is_same_equipment e1 e2 = false) :
    separated e1 e2 := by
  unfold _is_same_equipment at h
  unfold separated
  simpa [not_lt] using h

theorem process_equipment_queue_fst (pickup_ok : EquipmentInfo → Bool) :
    ∀ q : List EquipmentInfo, (_process_equipment_queue pickup_ok q).map Prod.fst = q := by
  intro q
  induction q with
  | nil => rfl
  | cons e rest ih => simp [_process_equipment_queue, _verify_equipment_exists, ih]

/-! ## Helper lemmas: the fighting loop branches -/

theorem move_step_actions (env : FightEnv) (s : FightState) :
    (move_step env s).2 = [] ∨ ∃ x y, (move_step env s).2 = [GameAction.move x y] := by
  unfold move_step
  by_cases h1 : s.move_interval ≤ env.now - s.last_move_time
  · by_cases h2 : s.max_random_moves ≤ s.random_move_count
    · right; exact ⟨960, 540, by simp [h1, h2]⟩
    · right; exact ⟨env.move_pos.1, env.move_pos.2, by simp [h1, h2]⟩
  · left; simp [h1]

theorem attack_step_actions (env : FightEnv) (s : FightState) :
    (attack_step env s).2 = [] ∨ ∃ x y, (attack_step env s).2 = [GameAction.attack x y] := by
  unfold attack_step
  by_cases h1 : s.fight_interval ≤ env.now - s.last_attack_time
  · right; exact ⟨env.attack_pos.1, env.attack_pos.2, by simp [h1]⟩
  · left; simp [h1]

theorem combat_trace_no_pickup (env : FightEnv) (s : FightState) :
    ∀ a ∈ (move_step env s).2 ++ (attack_step env (move_step env s).1).2,
      is_pickup_action a = false ∧ is_combat_action a = true := by
  intro a ha
  rcases List.mem_append.mp ha with hm | hm
  · rcases move_step_actions env s with he | ⟨x, y, he⟩
    · rw [he] at hm; simp at hm
    · rw [he] at hm
      rcases List.mem_singleton.mp hm with rfl
      exact ⟨rfl, rfl⟩
  · rcases attack_step_actions env (move_step env s).1 with he | ⟨x, y, he⟩
    · rw [he] at hm; simp at hm
    · rw [he] at hm
      rcases List.mem_singleton.mp hm with rfl
      exact ⟨rfl, rfl⟩

/-! ## Claim theorems -/

/-- C10: for every input `t`, `set_match_threshold` stores exactly
`min(1.0, max(0.0, t))`, so the stored threshold always lies in `[0, 1]`
and equals `t` whenever `t` is already in `[0, 1]`; out-of-range inputs
are clamped, never rejected (the function is total and always stores a
value). -/
theorem C10_set_match_threshold_clamps :
    ∀ (s : DetectorState) (t : ℚ),
      (set_match_threshold s t).match_threshold = min 1 (max 0 t)
        ∧ 0 ≤ (set_match_threshold s t).match_threshold
        ∧ (set_match_threshold s t).match_threshold ≤ 1
        ∧ (0 ≤ t → t ≤ 1 → (set_match_threshold s t).match_threshold = t) := by
  intro s t
  have heq : (set_match_threshold s t).match_threshold = max 0 (min 1 t) := rfl
  refine ⟨?_, ?_, ?_, ?_⟩
  · rw [heq, max_min_distrib_left]
    simp
  · rw [heq]
    exact le_max_left 0 _
  · rw [heq]
    exact max_le (by norm_num) (min_le_left 1 t)
  · intro h0 h1
    rw [heq, min_eq_right h1, max_eq_right h0]

/-- Witness for C10 at the in-range input 1/2. -/
theorem C10_set_match_threshold_clamps_witness :
    (0 : ℚ) ≤ mkRat 1 2 ∧ (mkRat 1 2 : ℚ) ≤ 1
      ∧ (set_match_threshold detector_state_empty (mkRat 1 2)).match_threshold = mkRat 1 2 :=
  ⟨by decide, by decide,
    (C10_set_match_threshold_clamps detector_state_empty (mkRat 1 2)).2.2.2
      (by decide) (by decide)⟩

/-- C9 (amended): with an empty template library,
`start_realtime_detection` refuses to start: the state is unchanged (no
detection thread is created and `is_running` stays as it was, in
particular `false`), and an error message is logged.  However, the
function returns `None` on every path, so the caller receives the same
return value as from any other call: the refusal is logged, not reported
through the return value. -/
theorem C9_empty_library_refuses_start :
    ∀ s s' : DetectorState, s.templates = [] →
      (start_realtime_detection s).state = s
        ∧ (start_realtime_detection s).logs = [StartLog.err_no_templates]
        ∧ (start_realtime_detection s).ret = (start_realtime_detection s').ret := by
  intro s s' h
  have he : s.templates.isEmpty = true := by simp [h]
  refine ⟨?_, ?_, rfl⟩ <;> simp [start_realtime_detection, he]

/-- Witness for C9 at the empty-library state. -/
theorem C9_empty_library_refuses_start_witness :
    detector_state_empty.templates = []
      ∧ (start_realtime_detection detector_state_empty).state = detector_state_empty
      ∧ (start_realtime_detection detector_state_empty).logs = [StartLog.err_no_templates] :=
  ⟨rfl,
    (C9_empty_library_refuses_start detector_state_empty detector_state_loaded rfl).1,
    (C9_empty_library_refuses_start detector_state_empty detector_state_loaded rfl).2.1⟩

/-- C9 counterexample to the claim as stated: the start failure is *not*
reported to the caller.  On the empty library the start is refused
(`is_running` stays `false`) and on a loaded library it succeeds
(`is_running` becomes `true`), yet the value returned to the caller is
identical (`None`) in both cases, so the caller cannot tell the refusal
from a success by the call's result; only the log line differs. -/
theorem C9_empty_library_refuses_start_counterexample :
    detector_state_empty.templates = []
      ∧ detector_state_loaded.templates ≠ []
      ∧ (start_realtime_detection detector_state_empty).state.is_running = false
      ∧ (start_realtime_detection detector_state_loaded).state.is_running = true
      ∧ (start_realtime_detection detector_state_empty).ret
          = (start_realtime_detection detector_state_loaded).ret := by
  refine ⟨rfl, by simp [detector_state_loaded], rfl, rfl, rfl⟩

/-- C8: when the screen capture fails (`capture_screen_safe` returned
`None`), `single_detection` returns the empty detection list (paired with
a zero elapsed time) without raising, and the detection-loop iteration
that consumed it leaves the loop running with only the loop counter
bumped: the condition is absorbed and the loop simply retries on its next
scheduled iteration. -/
theorem C8_capture_failure_returns_empty :
    ∀ (model : CvModel) (templates : List (String × Gray)) (threshold now elapsed : ℚ)
      (cb : EquipmentMatch → Bool → Bool × Except String Unit) (s : LoopState),
      s.is_running = true →
        single_detection model templates threshold none now elapsed = ([], 0)
          ∧ detection_loop_iter cb
                (single_detection model templates threshold none now elapsed).1 s
              = { s with loop_count := s.loop_count + 1 } := by
  intro model templates threshold now elapsed cb s h
  refine ⟨rfl, ?_⟩
  obtain ⟨r, q, d, c⟩ := s
  have hr : r = true := h
  subst hr
  rfl

/-- Witness for C8 on a concrete running loop state. -/
theorem C8_capture_failure_returns_empty_witness :
    loop_state0.is_running = true
      ∧ single_detection cv_const [] (mkRat 7 10) none 0 0 = ([], 0)
      ∧ detection_loop_iter cb_always_raises
            (single_detection cv_const [] (mkRat 7 10) none 0 0).1 loop_state0
          = { loop_state0 with loop_count := loop_state0.loop_count + 1 } :=
  ⟨rfl,
    (C8_capture_failure_returns_empty cv_const [] (mkRat 7 10) 0 0 cb_always_raises
      loop_state0 rfl).1,
    (C8_capture_failure_returns_empty cv_const [] (mkRat 7 10) 0 0 cb_always_raises
      loop_state0 rfl).2⟩

/-- C5: for every callback, including one that raises on every invocation
(and even one that clears the running flag before raising), a raised
exception neither terminates `_detection_loop` nor changes the value
`is_running` reports at iteration boundaries: after any number `n` of
further iterations — in particular 50 — the loop is still running and has
performed exactly `n` more iterations. -/
theorem C5_callback_exception_does_not_stop_loop :
    ∀ (cb : EquipmentMatch → Bool → Bool × Except String Unit)
      (found : ℕ → List EquipmentMatch) (s : LoopState) (n : ℕ),
      s.is_running = true →
        (detection_loop_run cb found n s).is_running = true
          ∧ (detection_loop_run cb found n s).loop_count = s.loop_count + n :=
  fun cb found s n h => detection_loop_run_keeps_running cb found n s h

/-- Witness for C5: an always-raising callback, matches delivered on every
iteration, 50 iterations. -/
theorem C5_callback_exception_does_not_stop_loop_witness :
    loop_state0.is_running = true
      ∧ (detection_loop_run cb_always_raises (fun _ => [match_hi]) 50 loop_state0).is_running
          = true
      ∧ (detection_loop_run cb_always_raises (fun _ => [match_hi]) 50 loop_state0).loop_count
          = loop_state0.loop_count + 50 :=
  ⟨rfl,
    (C5_callback_exception_does_not_stop_loop cb_always_raises (fun _ => [match_hi])
      loop_state0 50 rfl).1,
    (C5_callback_exception_does_not_stop_loop cb_always_raises (fun _ => [match_hi])
      loop_state0 50 rfl).2⟩

/-- C2 (amended): in a `start_game.py` session the pending-target queue
never holds two entries whose centers are within the 30 px dedup radius:
ingestion (`equipment_detected_callback`) preserves pairwise separation,
dequeuing (`pop(0)`, i.e. taking the tail) preserves it, and the queue
starts empty; in particular, ingesting a detection at bounding box
`(100,100,40,40)` and then one at `(108,102,40,40)` leaves the queue at
depth 1 (the centers are about 8.2 px apart).  The invariant does *not*
hold for the v2 controller, whose ingestion path `_detect_equipment`
appends every detection without any dedup check — see the
counterexample, which runs this very scenario through the v2 path and
ends at depth 2. -/
theorem C2_queue_dedup_invariant :
    (∀ (q : List EquipmentInfo) (m : EquipmentMatch) (now : ℚ),
        queue_separated q → queue_separated (equipment_detected_callback q m now))
      ∧ (∀ q : List EquipmentInfo, queue_separated q → queue_separated q.tail)
      ∧ (equipment_detected_callback
            (equipment_detected_callback [] match_c2_first 0) match_c2_second 0).length = 1 := by
  refine ⟨?_, ?_, by decide⟩
  · intro q m now hq
    unfold equipment_detected_callback
    by_cases hdup : q.any
        (fun existing => _is_same_equipment (make_equipment_info m now) existing) = true
    · simpa [hdup] using hq
    · simp only [hdup, Bool.false_eq_true, if_false]
      have hdup2 : q.any
          (fun existing => _is_same_equipment (make_equipment_info m now) existing) = false := by
        simpa using hdup
      have hsep : ∀ e ∈ q, separated e (make_equipment_info m now) := by
        intro e he
        have hfalse : _is_same_equipment (make_equipment_info m now) e = false := by
          simpa using List.any_eq_false.mp hdup2 e he
        exact separated_symm _ _ (not_same_separated _ _ hfalse)
      have happ : (q ++ [make_equipment_info m now]).Pairwise separated := by
        rw [List.pairwise_append]
        refine ⟨hq, by simp, ?_⟩
        intro a ha b hb
        have hb2 : b = make_equipment_info m now := List.mem_singleton.mp hb
        subst hb2
        exact hsep a ha
      have hperm := stable_sort_perm dist_asc (q ++ [make_equipment_info m now])
      exact (hperm.pairwise_iff (fun hab => separated_symm _ _ hab)).mpr happ
  · intro q hq
    cases q with
    | nil => exact List.Pairwise.nil
    | cons e rest => exact (List.pairwise_cons.mp hq).2

/-- Witness for C2: ingestion into the (separated) empty queue. -/
theorem C2_queue_dedup_invariant_witness :
    queue_separated ([] : List EquipmentInfo)
      ∧ queue_separated (equipment_detected_callback [] match_c2_first 0) :=
  ⟨List.Pairwise.nil,
    C2_queue_dedup_invariant.1 [] match_c2_first 0 List.Pairwise.nil⟩

set_option maxRecDepth 40000 in
set_option maxHeartbeats 2000000 in
/-- C2 counterexample to the claim as stated: the claim covers every
session, including the v2 controller, but the v2 ingestion path
`_detect_equipment` deduplicates nothing.  Running the claim's own
scenario through it — a frame with one detection at bounding box
`(100,100,40,40)`, then a frame with one at `(108,102,40,40)` — leaves
the v2 pending queue at depth 2, not 1, and the two entries' centers
`(120,120)` and `(128,122)` are within the 30 px dedup radius of each
other (squared distance 68 < 900). -/
theorem C2_queue_dedup_invariant_counterexample :
    queue_v2_c2.length = 2
      ∧ queue_v2_c2.map equipment_center_v2 = [some (120, 120), some (128, 122)]
      ∧ ((120 : ℤ) - 128) ^ 2 + ((120 : ℤ) - 122) ^ 2 < 900 := by
  refine ⟨by decide, by decide, by decide⟩

/-- C3: ingestion keeps the pending-target queue sorted by ascending
distance to the screen center, and the drain pops the queue front to back,
so the nearest remaining target is always processed first; for three
detections ingested at distances 300, 50, 150 px (in that arrival order)
the drain processes them at distances 50, 150, 300 (the model stores
squared distances: 2500, 22500, 90000). -/
theorem C3_queue_sorted_nearest_first :
    (∀ (q : List EquipmentInfo) (m : EquipmentMatch) (now : ℚ),
        sorted_by_distance q → sorted_by_distance (equipment_detected_callback q m now))
      ∧ (∀ (pickup_ok : EquipmentInfo → Bool) (q : List EquipmentInfo),
          (_process_equipment_queue pickup_ok q).map Prod.fst = q)
      ∧ ((_process_equipment_queue (fun _ => true) queue_c3).map
            (fun r => r.1.distance_sq) = [2500, 22500, 90000]) := by
  refine ⟨?_, process_equipment_queue_fst, by decide⟩
  intro q m now hq
  unfold equipment_detected_callback
  by_cases hdup : q.any
      (fun existing => _is_same_equipment (make_equipment_info m now) existing) = true
  · simpa [hdup] using hq
  · simp only [hdup, Bool.false_eq_true, if_false]
    have htot : ∀ a b : EquipmentInfo, dist_asc a b = true ∨ dist_asc b a = true := by
      intro a b
      unfold dist_asc
      rcases le_total a.distance_sq b.distance_sq with h | h
      · left; simpa using h
      · right; simpa using h
    have htrans : ∀ a b c : EquipmentInfo,
        dist_asc a b = true → dist_asc b c = true → dist_asc a c = true := by
      intro a b c hab hbc
      unfold dist_asc at hab hbc ⊢
      simp only [decide_eq_true_eq] at hab hbc ⊢
      exact le_trans hab hbc
    have hp := stable_sort_pairwise dist_asc htot htrans (q ++ [make_equipment_info m now])
    exact hp.imp (fun hab => by simpa [dist_asc] using hab)

/-- Witness for C3: ingestion into the (sorted) empty queue. -/
theorem C3_queue_sorted_nearest_first_witness :
    sorted_by_distance ([] : List EquipmentInfo)
      ∧ sorted_by_distance (equipment_detected_callback [] match_c3_far 0) :=
  ⟨List.Pairwise.nil,
    C3_queue_sorted_nearest_first.1 [] match_c3_far 0 List.Pairwise.nil⟩

/-- C6: once the pickup cooldown has elapsed, a drain of the v2 pending
queue gives every dequeued target exactly one disposition, in sorted
order: a target whose age exceeds the 5 s staleness threshold is logged
as gone and gets zero `_pickup_single_equipment` calls, every other target
gets exactly one call whose success or failure is logged — failure
(`pickup_failure`) distinctly from the staleness skip (`skipped_gone`) —
and with no retry; afterwards the queue is empty (stale targets included)
and the picking-up flag is down. -/
theorem C6_pickup_drain_exactly_once :
    ∀ (click_ok : ℤ → ℤ → Bool) (now last_pickup_time : ℚ) (queue : List EquipmentInfoV2),
      2 ≤ now - last_pickup_time →
        (_handle_equipment_pickup click_ok true now last_pickup_time queue).logs
            = (_sort_equipment_by_distance queue).map (fun e =>
                if 5 < now - e.timestamp then PickupLog.skipped_gone e.name
                else if _pickup_single_equipment_v2 click_ok e then
                  PickupLog.pickup_success e.name
                else PickupLog.pickup_failure e.name)
          ∧ (_handle_equipment_pickup click_ok true now last_pickup_time queue).equipment_queue
              = []
          ∧ (_handle_equipment_pickup click_ok true now last_pickup_time queue).is_picking_up
              = false := by
  intro click_ok now last queue h
  have hcool : ¬ (now - last < 2) := not_lt.mpr h
  unfold _handle_equipment_pickup
  by_cases hq : queue.isEmpty
  · have hnil : queue = [] := by simpa [List.isEmpty_iff] using hq
    subst hnil
    simp [hcool, _sort_equipment_by_distance, stable_sort]
  · rw [if_neg hcool, if_neg hq]
    refine ⟨?_, ?_, rfl⟩
    · show (pickup_loop click_ok true now (_sort_equipment_by_distance queue)).1 = _
      rw [pickup_loop_logs]
      congr 1
      funext e
      unfold _verify_equipment_exists_v2
      by_cases hst : 5 < now - e.timestamp
      · simp [hst]
      · simp [hst]
    · show (pickup_loop click_ok true now (_sort_equipment_by_distance queue)).2.foldl
          (fun acc e => acc.erase e) queue = []
      rw [pickup_loop_processed]
      exact perm_foldl_erase _ _ (sort_equipment_by_distance_perm queue)

/-- Witness for C6: a never-succeeding click sequence, one fresh and one
stale target, cooldown elapsed. -/
theorem C6_pickup_drain_exactly_once_witness :
    (2 : ℚ) ≤ 10 - 0
      ∧ (_handle_equipment_pickup click_never true 10 0
            [equipment_v2_fresh, equipment_v2_stale]).logs
          = (_sort_equipment_by_distance [equipment_v2_fresh, equipment_v2_stale]).map (fun e =>
              if 5 < (10 : ℚ) - e.timestamp then PickupLog.skipped_gone e.name
              else if _pickup_single_equipment_v2 click_never e then
                PickupLog.pickup_success e.name
              else PickupLog.pickup_failure e.name)
      ∧ (_handle_equipment_pickup click_never true 10 0
            [equipment_v2_fresh, equipment_v2_stale]).equipment_queue = [] :=
  ⟨by norm_num,
    (C6_pickup_drain_exactly_once click_never 10 0 [equipment_v2_fresh, equipment_v2_stale]
      (by norm_num)).1,
    (C6_pickup_drain_exactly_once click_never 10 0 [equipment_v2_fresh, equipment_v2_stale]
      (by norm_num)).2.1⟩

/-- C4: in a `_fighting_loop` iteration, the pickup phase and the combat
phase never interleave.  Once the pickup branch is entered the whole queue
drain runs synchronously inside that iteration: a trace that contains any
pickup attempt contains no move and no attack, and when the iteration
ends the controller is back in combat (picking-up flag down, found flag
cleared, queue drained).  Conversely a trace that contains a move or an
attack contains no pickup action. -/
theorem C4_pickup_never_interleaves_combat :
    ∀ (env : FightEnv) (s : FightState),
      ((fighting_iter env s).2.any is_pickup_action = true →
          ((fighting_iter env s).2.all (fun a => !is_combat_action a) = true
            ∧ (fighting_iter env s).1.is_picking_up = false
            ∧ (fighting_iter env s).1.equipment_found = false
            ∧ (fighting_iter env s).1.equipment_queue = []))
        ∧ ((fighting_iter env s).2.any is_combat_action = true →
            (fighting_iter env s).2.all (fun a => !is_pickup_action a) = true) := by
  intro env s
  unfold fighting_iter
  by_cases h1 : s.is_running = false ∨ s.is_fighting = false
  · simp [h1]
  · rw [if_neg h1]
    by_cases h2 : s.should_stop = true
    · simp [h2]
    · rw [if_neg h2]
      by_cases h3 : s.equipment_found = true ∧ s.is_picking_up = false
      · rw [if_pos h3]
        constructor
        · intro _
          refine ⟨?_, rfl, rfl, rfl⟩
          rw [List.all_eq_true]
          intro a ha
          rcases List.mem_cons.mp ha with rfl | ha2
          · rfl
          · rcases List.mem_map.mp ha2 with ⟨r, _, rfl⟩
            rfl
        · intro hc
          exfalso
          rcases List.any_eq_true.mp hc with ⟨a, ha, hca⟩
          rcases List.mem_cons.mp ha with rfl | ha2
          · exact Bool.false_ne_true hca
          · rcases List.mem_map.mp ha2 with ⟨r, _, rfl⟩
            exact Bool.false_ne_true hca
      · rw [if_neg h3]
        constructor
        · intro hp
          exfalso
          rcases List.any_eq_true.mp hp with ⟨a, ha, hpa⟩
          rw [(combat_trace_no_pickup env s a ha).1] at hpa
          exact Bool.false_ne_true hpa
        · intro _
          rw [List.all_eq_true]
          intro a ha
          rw [(combat_trace_no_pickup env s a ha).1]
          rfl

/-- Witness for C4: a state that has just found equipment with one queued
target; its iteration trace contains a pickup attempt. -/
theorem C4_pickup_never_interleaves_combat_witness :
    (fighting_iter fight_env_c4 fight_state_c4).2.any is_pickup_action = true
      ∧ ((fighting_iter fight_env_c4 fight_state_c4).2.all (fun a => !is_combat_action a) = true
          ∧ (fighting_iter fight_env_c4 fight_state_c4).1.is_picking_up = false
          ∧ (fighting_iter fight_env_c4 fight_state_c4).1.equipment_found = false
          ∧ (fighting_iter fight_env_c4 fight_state_c4).1.equipment_queue = []) :=
  ⟨by decide,
    (C4_pickup_never_interleaves_combat fight_env_c4 fight_state_c4).1 (by decide)⟩

/-- C1 (amended): the detection list of `detect_equipment_templates` is
the greedy non-max suppression of the pooled raw candidates of all
templates and all scales taken together, in descending-confidence order,
where a candidate is kept exactly when its IoU with every already kept
candidate does *not exceed* the overlap threshold 0.5 (the code drops a
candidate only on strict excess, so a candidate at IoU exactly 0.5 is
kept; the claim's strict "below 0.5" fails only at that boundary).  In
particular, of two overlapping candidates with IoU > 0.5 exactly the
higher-confidence one survives (in either arrival order), and two
candidates with IoU = 0 both survive. -/
theorem C1_detect_is_pooled_greedy_nms :
    (∀ (model : CvModel) (templates : List (String × Gray)) (image : Gray)
        (threshold now : ℚ),
        detect_equipment_templates model templates image threshold now
          = greedy_nms (mkRat 1 2) []
              (stable_sort conf_desc (pooled_matches model templates image threshold now)))
      ∧ (∀ a b : EquipmentMatch, b.confidence < a.confidence →
          mkRat 1 2 < calculate_overlap a.position b.position →
          _remove_overlapping_matches [a, b] (mkRat 1 2) = [a]
            ∧ _remove_overlapping_matches [b, a] (mkRat 1 2) = [a])
      ∧ (∀ a b : EquipmentMatch, calculate_overlap a.position b.position = 0 →
          a ∈ _remove_overlapping_matches [a, b] (mkRat 1 2)
            ∧ b ∈ _remove_overlapping_matches [a, b] (mkRat 1 2)
            ∧ (_remove_overlapping_matches [a, b] (mkRat 1 2)).length = 2) := by
  refine ⟨?_, ?_, ?_⟩
  · intro model templates image threshold now
    unfold detect_equipment_templates
    exact remove_overlapping_eq_greedy _ _
  · intro a b hconf hov
    have hba : mkRat 1 2 < calculate_overlap b.position a.position := by
      rw [calculate_overlap_comm]
      exact hov
    have hle : conf_desc a b = true := by
      unfold conf_desc
      simpa using hconf.le
    have hnle : conf_desc b a = false := by
      unfold conf_desc
      simpa using not_le.mpr hconf
    have hsort1 : stable_sort conf_desc [a, b] = [a, b] := by
      simp [stable_sort, insert_sorted, hle]
    have hsort2 : stable_sort conf_desc [b, a] = [a, b] := by
      simp [stable_sort, insert_sorted, hnle]
    have hfold : [a, b].foldl (nms_fold_step (mkRat 1 2)) [] = [a] := by
      simp [nms_fold_step, hba]
    constructor
    · unfold _remove_overlapping_matches
      simp only [List.isEmpty_cons, Bool.false_eq_true, if_false]
      rw [hsort1, hfold]
    · unfold _remove_overlapping_matches
      simp only [List.isEmpty_cons, Bool.false_eq_true, if_false]
      rw [hsort2, hfold]
  · intro a b hov
    have hba : calculate_overlap b.position a.position = 0 := by
      rw [calculate_overlap_comm]
      exact hov
    have hhalf : ¬ (mkRat 1 2 < (0 : ℚ)) := by decide
    unfold _remove_overlapping_matches
    simp only [List.isEmpty_cons, Bool.false_eq_true, if_false]
    by_cases hc : conf_desc a b = true
    · have hsort : stable_sort conf_desc [a, b] = [a, b] := by
        simp [stable_sort, insert_sorted, hc]
      rw [hsort]
      have hfold : [a, b].foldl (nms_fold_step (mkRat 1 2)) [] = [a, b] := by
        simp [nms_fold_step, hba, hhalf]
      rw [hfold]
      refine ⟨by simp, by simp, rfl⟩
    · have hc2 : conf_desc a b = false := by simpa using hc
      have hsort : stable_sort conf_desc [a, b] = [b, a] := by
        simp [stable_sort, insert_sorted, hc2]
      rw [hsort]
      have hfold : [b, a].foldl (nms_fold_step (mkRat 1 2)) [] = [b, a] := by
        simp [nms_fold_step, hov, hhalf]
      rw [hfold]
      refine ⟨by simp, by simp, rfl⟩

/-- Witness for C1: of two candidates with IoU 3/4 and confidences
0.9 > 0.8, only the higher-confidence one survives the suppression. -/
theorem C1_detect_is_pooled_greedy_nms_witness :
    match_lo.confidence < match_hi.confidence
      ∧ mkRat 1 2 < calculate_overlap match_hi.position match_lo.position
      ∧ _remove_overlapping_matches [match_hi, match_lo] (mkRat 1 2) = [match_hi] :=
  ⟨by decide, by decide,
    (C1_detect_is_pooled_greedy_nms.2.1 match_hi match_lo (by decide) (by decide)).1⟩

/-- C1 counterexample to the claim as stated: the claim says a candidate
is kept only if its IoU with every already kept candidate is *below* 0.5,
but the code drops only on strict excess.  Under `cv_half` the pool is a
0.9-confidence match with box `(0,0,2,2)` and a 0.8-confidence match with
box `(0,0,2,1)`, whose IoU is exactly 0.5 — and both are kept. -/
theorem C1_detect_is_pooled_greedy_nms_counterexample :
    detect_equipment_templates cv_half [("a", gray_a), ("b", gray_b)] gray_img (mkRat 7 10) 0
        = [match_a_half, match_b_half]
      ∧ calculate_overlap match_b_half.position match_a_half.position = mkRat 1 2
      ∧ ¬ (calculate_overlap match_b_half.position match_a_half.position < mkRat 1 2) :=
  ⟨by decide, by decide, by decide⟩

/-- C7 (amended): for a fixed frame, template library and threshold,
`detect_equipment_templates` is deterministic in everything except the
`timestamp` field of the returned matches, which records the wall-clock
time of the call: the list returned at time `t1` is exactly the list
returned at time `t2` with every timestamp replaced by `t1`, element for
element and in the same order.  (The claim's "identical lists" fails only
because each `EquipmentMatch` carries `timestamp=time.time()`.) -/
theorem C7_detect_deterministic_modulo_timestamp :
    ∀ (model : CvModel) (templates : List (String × Gray)) (image : Gray)
      (threshold t1 t2 : ℚ),
      detect_equipment_templates model templates image threshold t1
        = (detect_equipment_templates model templates image threshold t2).map
            (set_timestamp t1) := by
  intro model templates image threshold t1 t2
  unfold detect_equipment_templates
  rw [pooled_matches_timestamp model templates image threshold t1 t2]
  generalize pooled_matches model templates image threshold t2 = l
  unfold _remove_overlapping_matches
  have hempty : (l.map (set_timestamp t1)).isEmpty = l.isEmpty := by cases l <;> rfl
  by_cases hl : l.isEmpty
  · have hnil : l = [] := by simpa [List.isEmpty_iff] using hl
    subst hnil
    simp
  · rw [hempty]
    simp only [hl, Bool.false_eq_true, if_false]
    rw [stable_sort_map conf_desc conf_desc (set_timestamp t1) (fun a b => rfl) l]
    have hmap := nms_foldl_map (mkRat 1 2) (set_timestamp t1) (fun m => rfl)
      (stable_sort conf_desc l) []
    simpa using hmap

/-- C7 counterexample to the claim as stated: under the constant model a
1x1 frame and template yield one detection, and two calls at different
wall-clock times return different lists — the timestamps differ. -/
theorem C7_detect_deterministic_modulo_timestamp_counterexample :
    detect_equipment_templates cv_const [("tpl", gray_one)] gray_one (mkRat 7 10) 0
      ≠ detect_equipment_templates cv_const [("tpl", gray_one)] gray_one (mkRat 7 10) 1 := by
  decide
